import Mathlib

/-!
Shallow embedding of the requirement-accumulation and derived-architecture
logic of the omitt-chan web tool.

The client-side state logic lives in src/app/page.tsx (current page variant,
naive-replace merge) and src/app/page_original_backup.tsx (backup page
variant, additive merge); the validation chat rendering lives in
src/app/api/validate-requirements/route.ts.

React `useState` semantics matter for fidelity: inside an event handler,
calling a state setter does not change the values captured by the current
render closure.  Helper reads such as `getAllRequirements()` performed after
a `setRequirements(...)` call in the same handler therefore still see the
pre-mutation store.  The embedding threads the closure-captured store
explicitly wherever the source exhibits this behaviour.
-/

namespace OmittChan

/-- Priority enum of RequirementItem in src/app/page.tsx lines 5-12. -/
inductive Priority where
  | high
  | medium
  | low
deriving DecidableEq, Repr

/-- RequirementItem interface (src/app/page.tsx lines 5-12).  The optional
`type` field is named `rtype` because `type` would shadow nothing but reads
poorly; its contents are never inspected by the embedded logic. -/
structure RequirementItem where
  id : String
  title : String
  description : String
  priority : Option Priority := none
  category : Option String := none
  rtype : Option String := none
deriving DecidableEq, Repr

/-- StructuredRequirements interface (src/app/page.tsx lines 32-38): the
five-category requirement store. -/
structure StructuredRequirements where
  functional_requirements : List RequirementItem
  non_functional_requirements : List RequirementItem
  constraints : List RequirementItem
  wishes : List RequirementItem
  design_guidelines : List RequirementItem
deriving DecidableEq, Repr

/-- The initial (empty) requirement store (src/app/page.tsx lines 77-83). -/
def emptyRequirements : StructuredRequirements :=
  { functional_requirements := []
    non_functional_requirements := []
    constraints := []
    wishes := []
    design_guidelines := [] }

/-- Component type enum (src/app/page.tsx lines 14-21). -/
inductive ComponentType where
  | frontend
  | backend
  | database
  | infrastructure
  | security
  | integration
deriving DecidableEq, Repr

/-- SystemComponent interface (src/app/page.tsx lines 14-21). -/
structure SystemComponent where
  id : String
  name : String
  ctype : ComponentType
  description : String
  technologies : List String
  justification : String
deriving DecidableEq, Repr

/-- architecture_type enum (src/app/page.tsx line 24). -/
inductive ArchitectureType where
  | web
  | cloud
  | hybrid
  | on_premise
  | embedded
  | mobile_app
  | game
  | other
deriving DecidableEq, Repr

/-- deployment_environment enum (src/app/page.tsx line 25). -/
inductive DeploymentEnvironment where
  | cloud
  | on_premise
  | hybrid
deriving DecidableEq, Repr

/-- SystemArchitecture interface (src/app/page.tsx lines 23-30). -/
structure SystemArchitecture where
  architecture_type : ArchitectureType
  deployment_environment : DeploymentEnvironment
  components : List SystemComponent
  network_requirements : List String
  security_measures : List String
  scalability_considerations : List String
deriving DecidableEq, Repr

/-- Chat message sender enum (src/app/page.tsx line 43). -/
inductive Sender where
  | user
  | assistant
deriving DecidableEq, Repr

/-- ChatMessage interface (src/app/page.tsx lines 40-45).  The `Date`
timestamp is modelled as the millisecond count that `Date.now()` returns. -/
structure ChatMessage where
  id : String
  content : String
  sender : Sender
  timestamp : Nat
deriving DecidableEq, Repr

/-- Top-level component state of the Home component (src/app/page.tsx lines
62-83).  UI-only fields (active tab, help flag, in-flight spinner for
architecture generation) do not influence the embedded logic and are
omitted. -/
structure AppState where
  chatMessages : List ChatMessage
  currentMessage : String
  isAnalyzing : Bool
  systemArchitecture : Option SystemArchitecture
  selectedArchitectureType : ArchitectureType
  requirements : StructuredRequirements
deriving DecidableEq, Repr

/-- getAllRequirements (src/app/page.tsx lines 394-402): concatenation of
all five category lists, in declaration order. -/
def getAllRequirements (reqs : StructuredRequirements) : List RequirementItem :=
  reqs.functional_requirements ++
  reqs.non_functional_requirements ++
  reqs.constraints ++
  reqs.wishes ++
  reqs.design_guidelines

/-- The five category keys of StructuredRequirements, as used by
removeRequirement and the renderers. -/
inductive Category where
  | functional_requirements
  | non_functional_requirements
  | constraints
  | wishes
  | design_guidelines
deriving DecidableEq, Repr

/-- Projection of one category list out of the store. -/
def getCategory (reqs : StructuredRequirements) : Category → List RequirementItem
  | Category.functional_requirements => reqs.functional_requirements
  | Category.non_functional_requirements => reqs.non_functional_requirements
  | Category.constraints => reqs.constraints
  | Category.wishes => reqs.wishes
  | Category.design_guidelines => reqs.design_guidelines

/-- Replacement of one category list in the store, used to embed the
computed-key spread `{ ...requirements, [category]: ... }` of
removeRequirement (src/app/page.tsx lines 379-382). -/
def setCategory (reqs : StructuredRequirements) (cat : Category)
    (items : List RequirementItem) : StructuredRequirements :=
  match cat with
  | Category.functional_requirements => { reqs with functional_requirements := items }
  | Category.non_functional_requirements => { reqs with non_functional_requirements := items }
  | Category.constraints => { reqs with constraints := items }
  | Category.wishes => { reqs with wishes := items }
  | Category.design_guidelines => { reqs with design_guidelines := items }

/-- JavaScript string-or-default: `x || d` on an optional string field, where
both `undefined` and the empty string are falsy. -/
def jsOrStr : Option String → String → String
  | some s, d => if s = "" then d else s
  | none, d => d

/-- Additive merge of the backup page variant
(src/app/page_original_backup.tsx lines 101-107): each category of the new
store is the old category followed by the category the extraction oracle
returned. -/
def mergeAdditive (old doc : StructuredRequirements) : StructuredRequirements :=
  { functional_requirements :=
      old.functional_requirements ++ doc.functional_requirements
    non_functional_requirements :=
      old.non_functional_requirements ++ doc.non_functional_requirements
    constraints := old.constraints ++ doc.constraints
    wishes := old.wishes ++ doc.wishes
    design_guidelines := old.design_guidelines ++ doc.design_guidelines }

/-- JavaScript blank test: `!s.trim()` is true exactly when every character
of `s` is whitespace.  `String.trim` itself is byte-position based and not
kernel-reducible, so the guard is embedded directly on the character list;
only the emptiness of the trimmed string is ever consulted by the source. -/
def jsBlank (s : String) : Bool :=
  s.data.all (fun c => c.isWhitespace)

/-- Extraction response envelope of POST /api/analyze-requirements
(src/unnamed/part_002 lines 126-141 and src/app/page.tsx lines 111-160):
`success`, optional structured requirements, optional assistant text and
optional error text. -/
structure ExtractResponse where
  success : Bool
  requirements : Option StructuredRequirements
  assistantResponse : Option String
  error : Option String

/-- Request payload of generateSystemArchitecture's fetch
(src/app/page.tsx lines 187-190). -/
structure ArchCall where
  requirements : StructuredRequirements
  preferredArchitectureType : ArchitectureType
deriving DecidableEq, Repr

/-- generateSystemArchitecture (src/app/page.tsx lines 175-205).

`closureReqs` is the value of the component's `requirements` binding as
captured by the render closure in which the call runs; `getAllRequirements()`
inside the function reads that binding.  When the call happens right after a
`setRequirements(...)` in the same event handler (handleSendMessage line 150,
removeRequirement line 387), the closure still holds the pre-mutation store.

The architecture oracle is a parameter; `none` covers both a non-success
envelope and a thrown network error, which the source treats identically
(console logging only, architecture left unchanged).  The result pairs the
new `systemArchitecture` value with the list of oracle invocations made. -/
def generateSystemArchitecture
    (oracle : ArchCall → Option SystemArchitecture)
    (closureReqs : StructuredRequirements) (archType : ArchitectureType)
    (reqData : Option StructuredRequirements)
    (arch : Option SystemArchitecture) :
    Option SystemArchitecture × List ArchCall :=
  let reqToUse := reqData.getD closureReqs
  if (getAllRequirements closureReqs).length = 0 then
    (arch, [])
  else
    let call : ArchCall := ⟨reqToUse, archType⟩
    match oracle call with
    | some a => (some a, [call])
    | none => (arch, [call])

/-- handleSendMessage (src/app/page.tsx lines 85-173), current page variant
with the naive-replace merge.

`resp` is the parsed extraction response; `none` stands for a thrown
network/transport error (the catch branch of lines 161-169).  `now` stands
for `Date.now()`.  The returned list records the architecture-oracle calls
triggered by the exchange.

The heuristic shrink warning (lines 137-146) compares the closure-captured
pre-merge total with the total of the returned document; the JavaScript
comparison `newTotal < currentTotal * 0.5` is exact for item counts and is
embedded as `2 * newTotal < currentTotal`.  The automatic architecture
generation (line 150) passes the fresh document but runs in the old render
closure, so its emptiness guard still reads the pre-merge store. -/
def handleSendMessage
    (archOracle : ArchCall → Option SystemArchitecture)
    (resp : Option ExtractResponse) (now : Nat) (st : AppState) :
    AppState × List ArchCall :=
  if jsBlank st.currentMessage || st.isAnalyzing then
    (st, [])
  else
    let userMsg : ChatMessage :=
      ⟨toString now, st.currentMessage, Sender.user, now⟩
    let st1 : AppState :=
      { st with
          chatMessages := st.chatMessages ++ [userMsg],
          currentMessage := "",
          isAnalyzing := true }
    let finish := fun (s : AppState) (calls : List ArchCall) =>
      ({ s with isAnalyzing := false }, calls)
    match resp with
    | none =>
        let netMsg : ChatMessage :=
          ⟨toString (now + 1), "ネットワークエラーが発生しました。",
            Sender.assistant, now⟩
        finish { st1 with chatMessages := st1.chatMessages ++ [netMsg] } []
    | some data =>
      if data.success then
        let amsg : ChatMessage :=
          ⟨toString (now + 1),
            jsOrStr data.assistantResponse "APIからの応答が空でした。",
            Sender.assistant, now⟩
        let st2 : AppState :=
          { st1 with chatMessages := st1.chatMessages ++ [amsg] }
        match data.requirements with
        | some doc =>
            let currentTotal := (getAllRequirements st.requirements).length
            let newTotal := (getAllRequirements doc).length
            let warnMsg : ChatMessage :=
              ⟨toString now,
                "⚠️ 注意: 既存の要件の一部が失われた可能性があります。必要に応じて確認してください。",
                Sender.assistant, now⟩
            let st3 : AppState :=
              if 0 < currentTotal ∧ 2 * newTotal < currentTotal then
                { st2 with chatMessages := st2.chatMessages ++ [warnMsg] }
              else st2
            let st4 : AppState := { st3 with requirements := doc }
            let gen := generateSystemArchitecture archOracle st.requirements
              st.selectedArchitectureType (some doc) st4.systemArchitecture
            finish { st4 with systemArchitecture := gen.1 } gen.2
        | none => finish st2 []
      else
        let errMsg : ChatMessage :=
          ⟨toString (now + 1),
            jsOrStr data.error "エラーが発生しました。もう一度お試しください。",
            Sender.assistant, now⟩
        finish { st1 with chatMessages := st1.chatMessages ++ [errMsg] } []

/-- removeRequirement (src/app/page.tsx lines 378-392): filter the item out
of its category, then either regenerate the architecture with the
post-deletion store (the guard `getAllRequirements().length > 1` reads the
closure-captured pre-deletion store) or clear the architecture without an
oracle call. -/
def removeRequirement
    (archOracle : ArchCall → Option SystemArchitecture)
    (st : AppState) (cat : Category) (rid : String) :
    AppState × List ArchCall :=
  let newRequirements :=
    setCategory st.requirements cat
      ((getCategory st.requirements cat).filter (fun req => req.id != rid))
  let stSet : AppState := { st with requirements := newRequirements }
  if 1 < (getAllRequirements st.requirements).length then
    let gen := generateSystemArchitecture archOracle st.requirements
      st.selectedArchitectureType (some newRequirements) st.systemArchitecture
    ({ stSet with systemArchitecture := gen.1 }, gen.2)
  else
    ({ stSet with systemArchitecture := none }, [])

/-- Validation response envelope of POST /api/validate-requirements
(src/app/api/validate-requirements/route.ts lines 142-157). -/
structure ValidateResponse where
  success : Bool
  chatMessage : Option String
  error : Option String

/-- validateRequirements (src/app/page.tsx lines 207-257).  With an empty
store the function appends a fixed local chat message and returns before
touching the network; otherwise it forwards the store to the validation
oracle and relays the returned chat text (or the error fallbacks).  `none`
from the oracle stands for a thrown network error.  The second component
lists the payloads sent to the validation oracle. -/
def validateRequirements
    (valOracle : StructuredRequirements → Option ValidateResponse)
    (now : Nat) (st : AppState) :
    AppState × List StructuredRequirements :=
  if (getAllRequirements st.requirements).length = 0 then
    let emptyMsg : ChatMessage :=
      ⟨toString now, "検証する要件がありません。まず要件を抽出してください。",
        Sender.assistant, now⟩
    ({ st with chatMessages := st.chatMessages ++ [emptyMsg] }, [])
  else
    match valOracle st.requirements with
    | none =>
        let catchMsg : ChatMessage :=
          ⟨toString now,
            "要件検証中にエラーが発生しました。もう一度お試しください。",
            Sender.assistant, now⟩
        ({ st with
            chatMessages := st.chatMessages ++ [catchMsg],
            isAnalyzing := false }, [st.requirements])
    | some data =>
      if data.success then
        let okMsg : ChatMessage :=
          ⟨toString now, jsOrStr data.chatMessage "検証結果が空でした。",
            Sender.assistant, now⟩
        ({ st with
            chatMessages := st.chatMessages ++ [okMsg],
            isAnalyzing := false }, [st.requirements])
      else
        let failMsg : ChatMessage :=
          ⟨toString now,
            jsOrStr data.chatMessage
              (jsOrStr data.error "要件の検証に失敗しました。"),
            Sender.assistant, now⟩
        ({ st with
            chatMessages := st.chatMessages ++ [failMsg],
            isAnalyzing := false }, [st.requirements])

/-- clearAllRequirements (src/app/page.tsx lines 365-376): behind a
`window.confirm` gate, reset the store to empty and drop the architecture.
No network request is issued; the second component records the (empty) list
of architecture-oracle invocations. -/
def clearAllRequirements (confirm : Bool) (st : AppState) :
    AppState × List StructuredRequirements :=
  if confirm then
    ({ st with requirements := emptyRequirements, systemArchitecture := none }, [])
  else
    (st, [])

/-- Boolean check that `pat` occurs at the start of `hay` (character lists). -/
def segAt : List Char → List Char → Bool
  | _, [] => true
  | [], _ :: _ => false
  | c :: cs, d :: ds => c == d && segAt cs ds

/-- Boolean check that `pat` occurs somewhere inside `hay` (character lists). -/
def hasSeg : List Char → List Char → Bool
  | [], pat => pat.isEmpty
  | c :: cs, pat => segAt (c :: cs) pat || hasSeg cs pat

/-- String-level substring test: `pat` occurs contiguously inside `s`. -/
def containsSub (s pat : String) : Bool :=
  hasSeg s.data pat.data

/-- Propositional substring statement: `pat` occurs contiguously inside `s`,
witnessed by the surrounding pieces at character-list level. -/
def SegIn (pat s : String) : Prop :=
  ∃ u v, s.data = u ++ pat.data ++ v

/-- A contiguous middle piece of a three-part string concatenation is a
substring of the whole. -/
theorem segIn_of_append (x y z : String) : SegIn y (x ++ y ++ z) :=
  ⟨x.data, z.data, by simp [String.data_append]⟩

/-- Parsed JSON values, as produced by `JSON.parse`: null, booleans,
numbers, strings, arrays and objects.  Numeric values are modelled as
integers; no claim depends on fractional numbers. -/
inductive Json where
  | null : Json
  | bool : Bool → Json
  | num : Int → Json
  | str : String → Json
  | arr : List Json → Json
  | obj : List (String × Json) → Json

/-- Property access `j[k]`: defined on objects, `undefined` (here `none`)
everywhere else. -/
def getField : Json → String → Option Json
  | Json.obj fields, k => (fields.find? (fun p => p.1 == k)).map (fun p => p.2)
  | _, _ => none

/-- JavaScript truthiness of a possibly-absent JSON value: `undefined`,
`null`, `false`, `0` and the empty string are falsy. -/
def jsTruthy : Option Json → Bool
  | none => false
  | some Json.null => false
  | some (Json.bool b) => b
  | some (Json.num n) => n != 0
  | some (Json.str s) => s != ""
  | some (Json.arr _) => true
  | some (Json.obj _) => true

/-- JavaScript `typeof x === 'object'`: true for objects, arrays and null. -/
def typeofIsObject : Json → Bool
  | Json.null => true
  | Json.arr _ => true
  | Json.obj _ => true
  | _ => false

/-- JavaScript `Array.isArray` on a possibly-absent property. -/
def isArrayField : Option Json → Bool
  | some (Json.arr _) => true
  | _ => false

/-- The five property names checked by the import validation
(src/app/page.tsx lines 314-320). -/
def requiredProperties : List String :=
  ["functional_requirements",
   "non_functional_requirements",
   "constraints",
   "wishes",
   "design_guidelines"]

/-- isValidStructure (src/app/page.tsx lines 322-324): every one of the five
category properties of the loaded requirements object is an array.
`Array.isArray(undefined)` is false, so a missing property fails the check. -/
def isValidStructure (reqJson : Json) : Bool :=
  requiredProperties.all (fun prop => isArrayField (getField reqJson prop))

/-- Whole acceptance condition of the import (src/app/page.tsx lines 310 and
322-326): `data.requirements` must exist, be truthy and of object typeof,
and satisfy isValidStructure. -/
def importAccepted (data : Json) : Bool :=
  match getField data "requirements" with
  | some reqJson =>
      jsTruthy (some reqJson) && typeofIsObject reqJson && isValidStructure reqJson
  | none => false

/-- Decoding of an optional string-valued JSON property; non-string values
collapse to the default, which no claim depends on. -/
def getStrField (j : Json) (k : String) : String :=
  match getField j k with
  | some (Json.str s) => s
  | _ => ""

/-- Decoding of the optional priority property. -/
def decodePriority (j : Json) : Option Priority :=
  match getField j "priority" with
  | some (Json.str "high") => some Priority.high
  | some (Json.str "medium") => some Priority.medium
  | some (Json.str "low") => some Priority.low
  | _ => none

/-- Decoding of the optional free-text properties. -/
def getOptStrField (j : Json) (k : String) : Option String :=
  match getField j k with
  | some (Json.str s) => some s
  | _ => none

/-- Representation of one loaded requirement item in the typed model.  The
source stores the raw parsed object without per-item validation; the claims
about import never inspect item fields, so schema-conforming documents are
decoded losslessly and malformed items collapse to defaults. -/
def decodeItem (j : Json) : RequirementItem :=
  { id := getStrField j "id"
    title := getStrField j "title"
    description := getStrField j "description"
    priority := decodePriority j
    category := getOptStrField j "category"
    rtype := getOptStrField j "type" }

/-- Decoding of one category array of the loaded requirements object. -/
def decodeItems (reqJson : Json) (k : String) : List RequirementItem :=
  match getField reqJson k with
  | some (Json.arr xs) => xs.map decodeItem
  | _ => []

/-- Representation of the accepted requirements object in the typed store. -/
def decodeStructuredRequirements (reqJson : Json) : StructuredRequirements :=
  { functional_requirements := decodeItems reqJson "functional_requirements"
    non_functional_requirements := decodeItems reqJson "non_functional_requirements"
    constraints := decodeItems reqJson "constraints"
    wishes := decodeItems reqJson "wishes"
    design_guidelines := decodeItems reqJson "design_guidelines" }

/-- Decoding of the architecture_type string. -/
def decodeArchType : String → ArchitectureType
  | "web" => ArchitectureType.web
  | "cloud" => ArchitectureType.cloud
  | "hybrid" => ArchitectureType.hybrid
  | "on_premise" => ArchitectureType.on_premise
  | "embedded" => ArchitectureType.embedded
  | "mobile_app" => ArchitectureType.mobile_app
  | "game" => ArchitectureType.game
  | _ => ArchitectureType.other

/-- Decoding of the deployment_environment string. -/
def decodeDeployEnv : String → DeploymentEnvironment
  | "cloud" => DeploymentEnvironment.cloud
  | "on_premise" => DeploymentEnvironment.on_premise
  | _ => DeploymentEnvironment.hybrid

/-- Decoding of the component type string. -/
def decodeComponentType : String → ComponentType
  | "frontend" => ComponentType.frontend
  | "backend" => ComponentType.backend
  | "database" => ComponentType.database
  | "infrastructure" => ComponentType.infrastructure
  | "security" => ComponentType.security
  | _ => ComponentType.integration

/-- Decoding of a string array property. -/
def decodeStrList (j : Json) (k : String) : List String :=
  match getField j k with
  | some (Json.arr xs) =>
      xs.map (fun x => match x with | Json.str s => s | _ => "")
  | _ => []

/-- Decoding of one system component object. -/
def decodeComponent (j : Json) : SystemComponent :=
  { id := getStrField j "id"
    name := getStrField j "name"
    ctype := decodeComponentType (getStrField j "type")
    description := getStrField j "description"
    technologies := decodeStrList j "technologies"
    justification := getStrField j "justification" }

/-- Representation of a loaded systemArchitecture object in the typed
model; the source stores the raw parsed value without validation. -/
def decodeSystemArchitecture (j : Json) : SystemArchitecture :=
  { architecture_type := decodeArchType (getStrField j "architecture_type")
    deployment_environment := decodeDeployEnv (getStrField j "deployment_environment")
    components :=
      match getField j "components" with
      | some (Json.arr xs) => xs.map decodeComponent
      | _ => []
    network_requirements := decodeStrList j "network_requirements"
    security_measures := decodeStrList j "security_measures"
    scalability_considerations := decodeStrList j "scalability_considerations" }

/-- The chat message appended when any import error is thrown
(src/app/page.tsx lines 352-357). -/
def importErrorMessage (now : Nat) : ChatMessage :=
  ⟨toString now,
    "❌ JSONファイルの読み込みに失敗しました。ファイル形式が正しくない可能性があります。",
    Sender.assistant, now⟩

/-- loadRequirementsFromJSON (src/app/page.tsx lines 295-363), from the
point where the selected file has been read and parsed into `data`.

On acceptance the store is wholesale replaced; the architecture is replaced
only when `data.systemArchitecture` is truthy, otherwise it is left alone.
The success chat message is appended from a `setTimeout` callback created in
the old render closure, so the item count it reports reads the pre-import
store.  Every failure (missing or non-object `requirements`, a category
property that is not an array) throws, is caught, and appends the same
fixed error message, leaving the store and the architecture untouched. -/
def loadRequirementsFromJSON (now : Nat) (st : AppState) (data : Json) : AppState :=
  match getField data "requirements" with
  | some reqJson =>
    if jsTruthy (some reqJson) && typeofIsObject reqJson then
      if isValidStructure reqJson then
        let archField := getField data "systemArchitecture"
        let st1 : AppState :=
          { st with requirements := decodeStructuredRequirements reqJson }
        let loadedArch := some (decodeSystemArchitecture (archField.getD Json.null))
        let st2 : AppState :=
          if jsTruthy archField then { st1 with systemArchitecture := loadedArch }
          else st1
        let staleTotal := (getAllRequirements st.requirements).length
        let okMsg : ChatMessage :=
          ⟨toString now,
            "📂 JSONファイルから要件を読み込みました。（" ++ toString staleTotal ++
              "件の要件" ++ (if jsTruthy archField then "とシステム構成" else "") ++
              "を復元）",
            Sender.assistant, now⟩
        { st2 with chatMessages := st2.chatMessages ++ [okMsg] }
      else
        { st with chatMessages := st.chatMessages ++ [importErrorMessage now] }
    else
      { st with chatMessages := st.chatMessages ++ [importErrorMessage now] }
  | none =>
      { st with chatMessages := st.chatMessages ++ [importErrorMessage now] }

/-- overall_status enum of ValidationResult
(src/app/api/validate-requirements/route.ts line 26). -/
inductive OverallStatus where
  | good
  | warning
  | critical
deriving DecidableEq, Repr

/-- critical_questions record of ValidationResult
(src/app/api/validate-requirements/route.ts lines 32-36). -/
structure CriticalQuestions where
  system_type_missing : Bool
  personal_data_missing : Bool
  user_scope_missing : Bool
deriving DecidableEq, Repr

/-- ValidationResult interface
(src/app/api/validate-requirements/route.ts lines 25-37).  The completeness
score is specified as an integer between 0 and 100; it is modelled as an
integer without the range restriction, which the renderer does not rely
on. -/
structure ValidationResult where
  overall_status : OverallStatus
  missing_requirements : List String
  contradictions : List String
  unclear_requirements : List String
  recommendations : List String
  completeness_score : Int
  critical_questions : CriticalQuestions
deriving DecidableEq, Repr

/-- statusEmoji map (src/app/api/validate-requirements/route.ts lines
162-166). -/
def statusEmoji : OverallStatus → String
  | OverallStatus.good => "✅"
  | OverallStatus.warning => "⚠️"
  | OverallStatus.critical => "❌"

/-- statusText map (src/app/api/validate-requirements/route.ts lines
168-172). -/
def statusText : OverallStatus → String
  | OverallStatus.good => "良好"
  | OverallStatus.warning => "注意が必要"
  | OverallStatus.critical => "重要な問題あり"

/-- The passing judgement line appended when completeness_score is at least
50 (src/app/api/validate-requirements/route.ts line 179). -/
def passJudgementLine : String :=
  "🎉 **判定: 合格** - 見積もり・開発検討に進むことができます\n\n"

/-- The not-yet-passing judgement line appended when completeness_score is
below 50 (src/app/api/validate-requirements/route.ts line 181). -/
def failJudgementLine : String :=
  "📝 **判定: 要検討** - もう少し要件を整理してから進めることをお勧めします\n\n"

/-- The judgement segment selected by the threshold comparison
`validation.completeness_score >= 50`
(src/app/api/validate-requirements/route.ts lines 177-182). -/
def judgementLine (v : ValidationResult) : String :=
  if 50 ≤ v.completeness_score then passJudgementLine else failJudgementLine

/-- Header of the validation chat message
(src/app/api/validate-requirements/route.ts lines 174-175). -/
def messageHeader (v : ValidationResult) : String :=
  "📋 **要件の確認結果**\n\n" ++ statusEmoji v.overall_status ++
  " **総合評価**: " ++ statusText v.overall_status ++
  " (" ++ toString v.completeness_score ++ "点/100点)\n"

/-- Bulleted lines appended by a forEach loop
(src/app/api/validate-requirements/route.ts lines 211-241). -/
def bulletItems (items : List String) : String :=
  items.foldl (fun acc item => acc ++ "• " ++ item ++ "\n") ""

/-- One conditional bulleted section of the validation chat message: the
header, the items and a blank line, emitted only when the list is
non-empty. -/
def bulletSection (header : String) (items : List String) : String :=
  if 0 < items.length then header ++ bulletItems items ++ "\n" else ""

/-- Critical-questions block
(src/app/api/validate-requirements/route.ts lines 184-209). -/
def criticalQuestionsBlock (q : CriticalQuestions) : String :=
  if q.system_type_missing || q.personal_data_missing || q.user_scope_missing then
    "❓ **重要な確認事項** - 以下について教えてください：\n" ++
    (if q.system_type_missing then
      "• このシステムは **新規作成** ですか？それとも **既存システムの移行・改修** ですか？\n"
     else "") ++
    (if q.personal_data_missing then
      "• このシステムは **個人情報を扱います** か？（氏名、メールアドレス、電話番号など）\n"
     else "") ++
    (if q.user_scope_missing then
      "• システムの利用者はどの範囲ですか？\n  - **特定の少数**（社内の特定部署など）\n  - **特定の多数**（全社員、会員など）\n  - **不特定の多数**（一般の方々）\n"
     else "") ++
    "\n"
  else ""

/-- Closing remark (src/app/api/validate-requirements/route.ts lines
243-253), chosen by the same score threshold and the overall status. -/
def closingRemark (v : ValidationResult) : String :=
  if 50 ≤ v.completeness_score then
    match v.overall_status with
    | OverallStatus.good =>
        "👍 要件がよく整理されています。このまま見積もり・開発の検討を進めることができそうです。"
    | OverallStatus.warning =>
        "🔧 いくつか改善できる点がありますが、対応していただければ見積もり・開発を進められます。"
    | OverallStatus.critical =>
        "⚠️ 一部に重要な確認事項がありますが、基本的な要件は整っています。見積もり検討を進めつつ、詳細を調整していきましょう。"
  else
    "🚨 重要な確認事項が多くあります。見積もりの精度を上げるため、これらの内容を整理していただくことをお勧めします。"

/-- Everything the validation chat message appends after the judgement
line: critical questions, the four bulleted finding sections and the
closing remark. -/
def messageAfterJudgement (v : ValidationResult) : String :=
  criticalQuestionsBlock v.critical_questions ++
  bulletSection "🔍 **追加で検討が必要な項目:**\n" v.missing_requirements ++
  bulletSection "⚡ **矛盾する内容:**\n" v.contradictions ++
  bulletSection "❓ **より詳しく決めた方が良い内容:**\n" v.unclear_requirements ++
  bulletSection "💡 **より良いシステムにするためのご提案:**\n" v.recommendations ++
  closingRemark v

/-- generateChatMessage (src/app/api/validate-requirements/route.ts lines
161-256): the chat text rendered from a ValidationResult. -/
def generateChatMessage (v : ValidationResult) : String :=
  messageHeader v ++ judgementLine v ++ messageAfterJudgement v

/-- Human-readable project label of the architecture type: the conditional
chain of src/app/page.tsx lines 424-431, whose final else branch (the
on_premise label) is the fallback. -/
def archLabel : ArchitectureType → String
  | ArchitectureType.web => "Webアプリケーション"
  | ArchitectureType.cloud => "クラウドネイティブシステム"
  | ArchitectureType.hybrid => "ハイブリッドシステム"
  | ArchitectureType.embedded => "組み込みシステム"
  | ArchitectureType.mobile_app => "スマートフォンアプリケーション"
  | ArchitectureType.game => "ゲームアプリケーション"
  | ArchitectureType.other => "その他のシステム"
  | ArchitectureType.on_premise => "オンプレミスシステム"

/-- Raw wire string of the architecture type, interpolated at
src/app/page.tsx line 445. -/
def archTypeStr : ArchitectureType → String
  | ArchitectureType.web => "web"
  | ArchitectureType.cloud => "cloud"
  | ArchitectureType.hybrid => "hybrid"
  | ArchitectureType.on_premise => "on_premise"
  | ArchitectureType.embedded => "embedded"
  | ArchitectureType.mobile_app => "mobile_app"
  | ArchitectureType.game => "game"
  | ArchitectureType.other => "other"

/-- Raw wire string of the deployment environment, interpolated at
src/app/page.tsx line 446. -/
def deployEnvStr : DeploymentEnvironment → String
  | DeploymentEnvironment.cloud => "cloud"
  | DeploymentEnvironment.on_premise => "on_premise"
  | DeploymentEnvironment.hybrid => "hybrid"

/-- Raw wire string of the component type, interpolated at src/app/page.tsx
line 450. -/
def componentTypeStr : ComponentType → String
  | ComponentType.frontend => "frontend"
  | ComponentType.backend => "backend"
  | ComponentType.database => "database"
  | ComponentType.infrastructure => "infrastructure"
  | ComponentType.security => "security"
  | ComponentType.integration => "integration"

/-- Requirement bullet lines `・title: description` joined by newlines
(src/app/page.tsx lines 436, 439, 442). -/
def bulletLines (items : List RequirementItem) : String :=
  String.intercalate "\n"
    (items.map (fun req => "・" ++ req.title ++ ": " ++ req.description))

/-- Plain-string bullet lines joined by newlines
(src/app/page.tsx lines 454, 457, 460). -/
def strBullets (items : List String) : String :=
  String.intercalate "\n" (items.map (fun item => "・" ++ item))

/-- One component block of the technical section
(src/app/page.tsx lines 449-451). -/
def componentBlock (comp : SystemComponent) : String :=
  "・" ++ comp.name ++ " (" ++ componentTypeStr comp.ctype ++ ")\n  技術: " ++
  String.intercalate ", " comp.technologies ++ "\n  概要: " ++ comp.description

/-- Component blocks joined by blank lines (src/app/page.tsx line 451). -/
def componentsJoined (comps : List SystemComponent) : String :=
  String.intercalate "\n\n" (comps.map componentBlock)

/-- The fixed placeholder template returned when the architecture is absent
or the store is empty (src/app/page.tsx lines 406-418). -/
def estimatePlaceholder : String :=
  "見積もり依頼書\n\n【プロジェクト概要】\nまず、要件を入力してシステム構成を生成してください。\n\n【システム要件】\n要件の分析が完了していません。\n\n【技術仕様】\nシステム構成の生成をお待ちください。\n\n【その他】\nご質問やご相談がございましたら、お気軽にお声がけください。"

/-- Functional-requirements category header with its exact item count
(src/app/page.tsx line 435). -/
def funcHeader (reqs : StructuredRequirements) : String :=
  "■ 機能要件 (" ++ toString reqs.functional_requirements.length ++ "件)"

/-- Non-functional-requirements category header with its exact item count
(src/app/page.tsx line 438). -/
def nonFuncHeader (reqs : StructuredRequirements) : String :=
  "■ 非機能要件 (" ++ toString reqs.non_functional_requirements.length ++ "件)"

/-- Constraints category header with its exact item count
(src/app/page.tsx line 441). -/
def constraintsHeader (reqs : StructuredRequirements) : String :=
  "■ 制約条件 (" ++ toString reqs.constraints.length ++ "件)"

/-- Components section header with its exact component count
(src/app/page.tsx line 448). -/
def componentsHeader (a : SystemArchitecture) : String :=
  "■ システムコンポーネント (" ++ toString a.components.length ++ "件)"

/-- Main body of the estimate template (src/app/page.tsx lines 421-464),
emitted when an architecture exists and the store is non-empty. -/
def estimateBody (reqs : StructuredRequirements) (a : SystemArchitecture) : String :=
  "見積もり依頼書\n\n【プロジェクト概要】\n" ++ archLabel a.architecture_type ++
  "の開発をご依頼いたします。\n\n【システム要件】\n" ++
  funcHeader reqs ++ "\n" ++ bulletLines reqs.functional_requirements ++
  "\n\n" ++ nonFuncHeader reqs ++ "\n" ++ bulletLines reqs.non_functional_requirements ++
  "\n\n" ++ constraintsHeader reqs ++ "\n" ++ bulletLines reqs.constraints ++
  "\n\n【技術仕様】\n■ アーキテクチャタイプ: " ++ archTypeStr a.architecture_type ++
  "\n■ デプロイ環境: " ++ deployEnvStr a.deployment_environment ++
  "\n\n" ++ componentsHeader a ++ "\n" ++ componentsJoined a.components ++
  "\n\n■ ネットワーク要件\n" ++ strBullets a.network_requirements ++
  "\n\n■ セキュリティ対策\n" ++ strBullets a.security_measures ++
  "\n\n■ スケーラビリティ考慮事項\n" ++ strBullets a.scalability_considerations ++
  "\n\n【その他】\nご質問やご相談がございましたら、お気軽にお声がけください。\n"

/-- generateEstimateTemplate (src/app/page.tsx lines 404-467): the pure
document renderer over the store and the optional architecture. -/
def generateEstimateTemplate (reqs : StructuredRequirements)
    (arch : Option SystemArchitecture) : String :=
  match arch with
  | none => estimatePlaceholder
  | some a =>
      if (getAllRequirements reqs).length = 0 then estimatePlaceholder
      else estimateBody reqs a


/-! Concrete fixtures used by counterexamples and witnesses. -/

/-- A sample functional requirement item. -/
def exItemA : RequirementItem :=
  { id := "fr-1", title := "ユーザー登録機能", description := "ユーザーを登録できる"
    priority := some Priority.high, category := some "認証", rtype := none }

/-- A second sample functional requirement item. -/
def exItemB : RequirementItem :=
  { id := "fr-2", title := "ログイン機能", description := "ユーザーがログインできる"
    priority := some Priority.medium, category := some "認証", rtype := none }

/-- A third sample functional requirement item. -/
def exItemC : RequirementItem :=
  { id := "fr-3", title := "検索機能", description := "データを検索できる"
    priority := some Priority.low, category := some "データ管理", rtype := none }

/-- A sample wish item. -/
def exWish : RequirementItem :=
  { id := "w-1", title := "かわいい画面", description := "親しみやすいデザインにしたい"
    priority := none, category := none, rtype := none }

/-- A store holding exactly one functional requirement, as the stub
extraction oracle of the first-message scenario returns it. -/
def exDoc1 : StructuredRequirements :=
  { functional_requirements := [exItemA]
    non_functional_requirements := []
    constraints := []
    wishes := []
    design_guidelines := [] }

/-- A store holding two functional requirements. -/
def exStoreTwo : StructuredRequirements :=
  { functional_requirements := [exItemA, exItemB]
    non_functional_requirements := []
    constraints := []
    wishes := []
    design_guidelines := [] }

/-- A store holding three functional requirements. -/
def exStoreThree : StructuredRequirements :=
  { functional_requirements := [exItemA, exItemB, exItemC]
    non_functional_requirements := []
    constraints := []
    wishes := []
    design_guidelines := [] }

/-- A document holding a single wish. -/
def exDocWish : StructuredRequirements :=
  { functional_requirements := []
    non_functional_requirements := []
    constraints := []
    wishes := [exWish]
    design_guidelines := [] }

/-- A minimal concrete system architecture. -/
def exArch : SystemArchitecture :=
  { architecture_type := ArchitectureType.web
    deployment_environment := DeploymentEnvironment.cloud
    components := []
    network_requirements := ["HTTPS通信"]
    security_measures := []
    scalability_considerations := [] }

/-- A stubbed architecture oracle that always succeeds with `exArch`. -/
def exArchOracleOk : ArchCall → Option SystemArchitecture := fun _ => some exArch

/-- A stubbed architecture oracle whose call always fails. -/
def exArchOracleFail : ArchCall → Option SystemArchitecture := fun _ => none

/-- A stubbed validation oracle whose call always fails. -/
def exValOracleFail : StructuredRequirements → Option ValidateResponse := fun _ => none

/-- The initial session state: empty store, no architecture, empty chat. -/
def exEmptyState : AppState :=
  { chatMessages := []
    currentMessage := ""
    isAnalyzing := false
    systemArchitecture := none
    selectedArchitectureType := ArchitectureType.web
    requirements := emptyRequirements }

/-- The first-message scenario state: empty store, the user text typed in. -/
def exScenarioState : AppState :=
  { exEmptyState with currentMessage := "ユーザー登録機能が欲しい" }

/-- A state holding two requirements and a previously generated
architecture. -/
def exTwoItemState : AppState :=
  { exEmptyState with
      requirements := exStoreTwo,
      systemArchitecture := some exArch }

/-- A state holding three requirements, a generated architecture and a
pending user message. -/
def exThreeItemState : AppState :=
  { exEmptyState with
      currentMessage := "シンプルにしてほしい",
      requirements := exStoreThree,
      systemArchitecture := some exArch }

/-- The extraction response of the first-message scenario: success with one
functional requirement. -/
def exExtractResp1 : ExtractResponse :=
  { success := true
    requirements := some exDoc1
    assistantResponse := some "1個の要件を抽出しました。"
    error := none }

/-- An extraction response that shrinks the store to a single wish. -/
def exExtractRespWish : ExtractResponse :=
  { success := true
    requirements := some exDocWish
    assistantResponse := some "1個の要件を抽出しました。"
    error := none }

/-! Claim theorems. -/

/-- C7: after a confirmed clear-all action, from any prior state, all five
categories of the requirement store are empty, the derived architecture is
absent, and no architecture-oracle call is made. -/
theorem clearAllRequirements_resets (st : AppState) :
    ((clearAllRequirements true st).1.requirements.functional_requirements = [] ∧
     (clearAllRequirements true st).1.requirements.non_functional_requirements = [] ∧
     (clearAllRequirements true st).1.requirements.constraints = [] ∧
     (clearAllRequirements true st).1.requirements.wishes = [] ∧
     (clearAllRequirements true st).1.requirements.design_guidelines = []) ∧
    (clearAllRequirements true st).1.systemArchitecture = none ∧
    (clearAllRequirements true st).2 = [] := by
  simp [clearAllRequirements, emptyRequirements]

/-- C2: under the additive-merge policy, every identifier present in a
category before the merge is still present in that category afterwards. -/
theorem mergeAdditive_preserves_ids (old doc : StructuredRequirements)
    (cat : Category) (iid : String)
    (h : iid ∈ (getCategory old cat).map RequirementItem.id) :
    iid ∈ (getCategory (mergeAdditive old doc) cat).map RequirementItem.id := by
  cases cat <;>
    simp only [getCategory, mergeAdditive, List.map_append, List.mem_append] <;>
    exact Or.inl h

/-- Witness for C2 at a concrete store and document. -/
theorem mergeAdditive_preserves_ids_witness :
    "fr-1" ∈ (getCategory exStoreTwo Category.functional_requirements).map
        RequirementItem.id ∧
    "fr-1" ∈ (getCategory (mergeAdditive exStoreTwo exDocWish)
        Category.functional_requirements).map RequirementItem.id :=
  ⟨by decide,
   mergeAdditive_preserves_ids exStoreTwo exDocWish
     Category.functional_requirements "fr-1" (by decide)⟩

/-- C9: triggering validation on an empty store makes no oracle call,
appends the fixed prompt asking the user to extract requirements first, and
leaves the store and the derived architecture unchanged. -/
theorem validateRequirements_empty_store
    (valOracle : StructuredRequirements → Option ValidateResponse)
    (now : Nat) (st : AppState)
    (h : (getAllRequirements st.requirements).length = 0) :
    (validateRequirements valOracle now st).2 = [] ∧
    (validateRequirements valOracle now st).1.requirements = st.requirements ∧
    (validateRequirements valOracle now st).1.systemArchitecture =
      st.systemArchitecture ∧
    (validateRequirements valOracle now st).1.chatMessages =
      st.chatMessages ++
        [⟨toString now, "検証する要件がありません。まず要件を抽出してください。",
          Sender.assistant, now⟩] := by
  simp [validateRequirements, h]

/-- Witness for C9 at the initial empty session state. -/
theorem validateRequirements_empty_store_witness :
    (validateRequirements exValOracleFail 7 exEmptyState).2 = [] ∧
    (validateRequirements exValOracleFail 7 exEmptyState).1.requirements =
      exEmptyState.requirements ∧
    (validateRequirements exValOracleFail 7 exEmptyState).1.systemArchitecture =
      exEmptyState.systemArchitecture ∧
    (validateRequirements exValOracleFail 7 exEmptyState).1.chatMessages =
      exEmptyState.chatMessages ++
        [⟨toString 7, "検証する要件がありません。まず要件を抽出してください。",
          Sender.assistant, 7⟩] :=
  validateRequirements_empty_store exValOracleFail 7 exEmptyState (by decide)

/-- C1 (failing input): in the first-message scenario the extraction oracle
returns one functional requirement into an empty store.  The store does end
up with exactly one functional item and nothing else, but the automatic
architecture generation makes zero oracle calls and leaves the architecture
absent, because the emptiness guard of generateSystemArchitecture reads the
closure-captured pre-merge (empty) store even though the fresh document is
passed as its argument — contradicting the comment on src/app/page.tsx line
149 and the specified behaviour.  The stubbed oracle here would succeed if
it were ever invoked. -/
theorem handleSendMessage_empty_store_skips_generation :
    ((handleSendMessage exArchOracleOk (some exExtractResp1) 0 exScenarioState).2 = [] ∧
     (handleSendMessage exArchOracleOk (some exExtractResp1) 0
         exScenarioState).1.systemArchitecture = none) ∧
    ((handleSendMessage exArchOracleOk (some exExtractResp1) 0
         exScenarioState).1.requirements.functional_requirements.length = 1 ∧
     (handleSendMessage exArchOracleOk (some exExtractResp1) 0
         exScenarioState).1.requirements.non_functional_requirements = [] ∧
     (handleSendMessage exArchOracleOk (some exExtractResp1) 0
         exScenarioState).1.requirements.constraints = [] ∧
     (handleSendMessage exArchOracleOk (some exExtractResp1) 0
         exScenarioState).1.requirements.wishes = [] ∧
     (handleSendMessage exArchOracleOk (some exExtractResp1) 0
         exScenarioState).1.requirements.design_guidelines = []) := by
  decide

/-- C3 (counterexample): deleting one of exactly two stored items leaves a
post-deletion total of one, yet the code still invokes the architecture
oracle once (with the post-deletion store) and does not clear the
architecture — the regeneration threshold tests the pre-deletion total, not
the post-deletion one.  The stubbed oracle fails, so the surviving
architecture is the stale pre-deletion one. -/
theorem removeRequirement_postTotalOne_still_calls_oracle :
    (getAllRequirements
        (removeRequirement exArchOracleFail exTwoItemState
          Category.functional_requirements "fr-1").1.requirements).length = 1 ∧
    (removeRequirement exArchOracleFail exTwoItemState
        Category.functional_requirements "fr-1").2.length = 1 ∧
    (removeRequirement exArchOracleFail exTwoItemState
        Category.functional_requirements "fr-1").1.systemArchitecture =
      some exArch := by
  decide

/-- C3 (amended): on item deletion the code re-runs generation with the
post-deletion store exactly when the PRE-deletion total item count exceeds
one, and otherwise clears the architecture without any oracle call. -/
theorem removeRequirement_threshold
    (archOracle : ArchCall → Option SystemArchitecture)
    (st : AppState) (cat : Category) (rid : String) :
    (1 < (getAllRequirements st.requirements).length →
      (removeRequirement archOracle st cat rid).2 =
        [⟨setCategory st.requirements cat
            ((getCategory st.requirements cat).filter (fun req => req.id != rid)),
          st.selectedArchitectureType⟩]) ∧
    ((getAllRequirements st.requirements).length ≤ 1 →
      (removeRequirement archOracle st cat rid).2 = [] ∧
      (removeRequirement archOracle st cat rid).1.systemArchitecture = none) := by
  constructor
  · intro h
    have hne : (getAllRequirements st.requirements).length ≠ 0 := by omega
    simp only [removeRequirement, generateSystemArchitecture, if_pos h, if_neg hne]
    split <;> rfl
  · intro h
    have hnot : ¬ 1 < (getAllRequirements st.requirements).length := by omega
    simp [removeRequirement, hnot]

/-- Witness for the amended C3 at a concrete two-item store. -/
theorem removeRequirement_threshold_witness :
    (removeRequirement exArchOracleFail exTwoItemState
        Category.functional_requirements "fr-2").2 =
      [⟨setCategory exTwoItemState.requirements Category.functional_requirements
          ((getCategory exTwoItemState.requirements
              Category.functional_requirements).filter (fun req => req.id != "fr-2")),
        exTwoItemState.selectedArchitectureType⟩] :=
  (removeRequirement_threshold exArchOracleFail exTwoItemState
    Category.functional_requirements "fr-2").1 (by decide)

/-- C6: when the extraction oracle returns a document whose total item
count is less than half the (positive) pre-merge total, the fixed shrink
warning is appended to the chat log and the merge is still applied — the
store becomes the returned document regardless of the warning. -/
theorem handleSendMessage_shrink_warning
    (archOracle : ArchCall → Option SystemArchitecture)
    (data : ExtractResponse) (doc : StructuredRequirements)
    (now : Nat) (st : AppState)
    (hmsg : jsBlank st.currentMessage = false)
    (hana : st.isAnalyzing = false)
    (hsucc : data.success = true)
    (hdoc : data.requirements = some doc)
    (hpre : 0 < (getAllRequirements st.requirements).length)
    (hhalf : 2 * (getAllRequirements doc).length <
      (getAllRequirements st.requirements).length) :
    (⟨toString now,
       "⚠️ 注意: 既存の要件の一部が失われた可能性があります。必要に応じて確認してください。",
       Sender.assistant, now⟩ : ChatMessage) ∈
      (handleSendMessage archOracle (some data) now st).1.chatMessages ∧
    (handleSendMessage archOracle (some data) now st).1.requirements = doc := by
  obtain ⟨succ, reqs, ar, er⟩ := data
  simp only at hsucc hdoc
  subst hsucc hdoc
  simp only [handleSendMessage, hmsg, hana, Bool.false_or, Bool.false_eq_true,
    if_false, eq_self_iff_true, if_true, if_pos (And.intro hpre hhalf)]
  constructor
  · simp
  · trivial

/-- Witness for C6: a three-item store shrinks to a one-item document. -/
theorem handleSendMessage_shrink_warning_witness :
    (⟨toString 2,
       "⚠️ 注意: 既存の要件の一部が失われた可能性があります。必要に応じて確認してください。",
       Sender.assistant, 2⟩ : ChatMessage) ∈
      (handleSendMessage exArchOracleFail (some exExtractRespWish) 2
          exThreeItemState).1.chatMessages ∧
    (handleSendMessage exArchOracleFail (some exExtractRespWish) 2
        exThreeItemState).1.requirements = exDocWish :=
  handleSendMessage_shrink_warning exArchOracleFail exExtractRespWish exDocWish 2
    exThreeItemState (by decide) rfl rfl rfl (by decide) (by decide)

/-- An import document whose requirements object is missing the `wishes`
category (the rejection scenario of the specification). -/
def exImportMissingWishes : Json :=
  Json.obj
    [("requirements",
      Json.obj
        [("functional_requirements", Json.arr []),
         ("non_functional_requirements", Json.arr []),
         ("constraints", Json.arr []),
         ("design_guidelines", Json.arr [])])]

/-- An import document whose five category fields all validate and whose
systemArchitecture field is null. -/
def exImportNoArch : Json :=
  Json.obj
    [("requirements",
      Json.obj
        [("functional_requirements",
          Json.arr [Json.obj
            [("id", Json.str "fr-9"),
             ("title", Json.str "帳票出力"),
             ("description", Json.str "帳票をPDFで出力できる")]]),
         ("non_functional_requirements", Json.arr []),
         ("constraints", Json.arr []),
         ("wishes", Json.arr []),
         ("design_guidelines", Json.arr [])]),
     ("systemArchitecture", Json.null)]

/-- C4: an imported document is accepted only if all five category fields
are present and are arrays; any rejected import appends the fixed
user-visible error message and leaves the store (and the architecture)
exactly as they were. -/
theorem loadRequirements_validation (now : Nat) (st : AppState) (data : Json) :
    (importAccepted data = false →
      (loadRequirementsFromJSON now st data).requirements = st.requirements ∧
      (loadRequirementsFromJSON now st data).systemArchitecture =
        st.systemArchitecture ∧
      (loadRequirementsFromJSON now st data).chatMessages =
        st.chatMessages ++ [importErrorMessage now]) ∧
    (importAccepted data = true →
      ∃ reqJson, getField data "requirements" = some reqJson ∧
        isValidStructure reqJson = true) := by
  constructor
  · intro h
    unfold loadRequirementsFromJSON
    cases hq : getField data "requirements" with
    | none => exact ⟨rfl, rfl, rfl⟩
    | some reqJson =>
      unfold importAccepted at h
      rw [hq] at h
      rcases hb : (jsTruthy (some reqJson) && typeofIsObject reqJson) with _ | _
      · simp [hb]
      · have hv : isValidStructure reqJson = false := by
          rcases hv : isValidStructure reqJson with _ | _
          · rfl
          · rw [Bool.and_eq_false_iff] at h
            rcases h with h | h
            · rw [hb] at h; cases h
            · rw [hv] at h; cases h
        simp [hb, hv]
  · intro h
    unfold importAccepted at h
    cases hq : getField data "requirements" with
    | none => rw [hq] at h; cases h
    | some reqJson =>
      rw [hq] at h
      rw [Bool.and_eq_true] at h
      exact ⟨reqJson, rfl, h.2⟩

/-- Witness for C4: importing the document without `wishes` into a
non-empty session is rejected, the error message is shown, and the store
and architecture are byte-identical to their pre-import values. -/
theorem loadRequirements_validation_witness :
    (loadRequirementsFromJSON 9 exTwoItemState exImportMissingWishes).requirements =
      exTwoItemState.requirements ∧
    (loadRequirementsFromJSON 9 exTwoItemState
        exImportMissingWishes).systemArchitecture =
      exTwoItemState.systemArchitecture ∧
    (loadRequirementsFromJSON 9 exTwoItemState exImportMissingWishes).chatMessages =
      exTwoItemState.chatMessages ++ [importErrorMessage 9] :=
  (loadRequirements_validation 9 exTwoItemState exImportMissingWishes).1 (by decide)

/-- C10: a successful import whose systemArchitecture field is absent or
null replaces the requirement store with the decoded imported requirements
while leaving the previously held derived architecture exactly as it was. -/
theorem loadRequirements_accepted_keeps_architecture
    (now : Nat) (st : AppState) (data : Json) (reqJson : Json)
    (hq : getField data "requirements" = some reqJson)
    (hobj : (jsTruthy (some reqJson) && typeofIsObject reqJson) = true)
    (hvalid : isValidStructure reqJson = true)
    (harch : jsTruthy (getField data "systemArchitecture") = false) :
    (loadRequirementsFromJSON now st data).systemArchitecture =
      st.systemArchitecture ∧
    (loadRequirementsFromJSON now st data).requirements =
      decodeStructuredRequirements reqJson := by
  unfold loadRequirementsFromJSON
  rw [hq]
  simp [hobj, hvalid, harch]

/-- Witness for C10: importing a valid document with a null
systemArchitecture into a session that already holds an architecture keeps
that architecture and replaces the store. -/
theorem loadRequirements_accepted_keeps_architecture_witness :
    (loadRequirementsFromJSON 11 exTwoItemState exImportNoArch).systemArchitecture =
      exTwoItemState.systemArchitecture ∧
    (loadRequirementsFromJSON 11 exTwoItemState exImportNoArch).requirements =
      decodeStructuredRequirements
        (Json.obj
          [("functional_requirements",
            Json.arr [Json.obj
              [("id", Json.str "fr-9"),
               ("title", Json.str "帳票出力"),
               ("description", Json.str "帳票をPDFで出力できる")]]),
           ("non_functional_requirements", Json.arr []),
           ("constraints", Json.arr []),
           ("wishes", Json.arr []),
           ("design_guidelines", Json.arr [])]) :=
  loadRequirements_accepted_keeps_architecture 11 exTwoItemState exImportNoArch _
    rfl (by decide) (by decide) (by decide)

/-- The scenario validation result scoring 45 with no findings. -/
def exValidation45 : ValidationResult :=
  { overall_status := OverallStatus.warning
    missing_requirements := []
    contradictions := []
    unclear_requirements := []
    recommendations := []
    completeness_score := 45
    critical_questions :=
      { system_type_missing := false
        personal_data_missing := false
        user_scope_missing := false } }

/-- The boundary validation result scoring exactly 50. -/
def exValidation50 : ValidationResult :=
  { exValidation45 with completeness_score := 50 }

/-- C5: the judgement segment of the rendered validation chat message is
the passing (合格) line exactly when completeness_score is at least 50 and
the 要検討 line exactly when it is below 50; the message factors through
that segment, the selected line always occurs as a substring of the
message, and in the concrete boundary scenarios a score of 45 yields a
message containing the 要検討 line but not the passing line, while a score
of exactly 50 yields a message containing the passing line. -/
theorem generateChatMessage_pass_threshold (v : ValidationResult) :
    (generateChatMessage v =
      messageHeader v ++ judgementLine v ++ messageAfterJudgement v) ∧
    (judgementLine v = passJudgementLine ↔ 50 ≤ v.completeness_score) ∧
    (judgementLine v = failJudgementLine ↔ v.completeness_score < 50) ∧
    (50 ≤ v.completeness_score →
      SegIn passJudgementLine (generateChatMessage v)) ∧
    (v.completeness_score < 50 →
      SegIn failJudgementLine (generateChatMessage v)) ∧
    containsSub (generateChatMessage exValidation45) failJudgementLine = true ∧
    containsSub (generateChatMessage exValidation45) passJudgementLine = false ∧
    containsSub (generateChatMessage exValidation50) passJudgementLine = true := by
  have hne : passJudgementLine ≠ failJudgementLine := by decide
  refine ⟨rfl, ?_, ?_, ?_, ?_, by decide, by decide, by decide⟩
  · unfold judgementLine
    split
    · next h => simp [h]
    · next h =>
        constructor
        · intro heq; exact absurd heq.symm hne
        · intro hs; exact absurd hs h
  · unfold judgementLine
    split
    · next h =>
        constructor
        · intro heq; exact absurd heq hne
        · intro hlt; omega
    · next h => simp; omega
  · intro h
    have hj : judgementLine v = passJudgementLine := by
      unfold judgementLine; rw [if_pos h]
    have hmsg : generateChatMessage v =
        messageHeader v ++ passJudgementLine ++ messageAfterJudgement v := by
      unfold generateChatMessage; rw [hj]
    rw [hmsg]
    exact segIn_of_append _ _ _
  · intro h
    have hj : judgementLine v = failJudgementLine := by
      unfold judgementLine; rw [if_neg (by omega)]
    have hmsg : generateChatMessage v =
        messageHeader v ++ failJudgementLine ++ messageAfterJudgement v := by
      unfold generateChatMessage; rw [hj]
    rw [hmsg]
    exact segIn_of_append _ _ _

/-- Witness for C5 at the boundary score of exactly 50. -/
theorem generateChatMessage_pass_threshold_witness :
    SegIn passJudgementLine (generateChatMessage exValidation50) :=
  (generateChatMessage_pass_threshold exValidation50).2.2.2.1 (by decide)

/-- Head of an append with a non-empty left part. -/
theorem headAppend (l r : List Char) (h : l ≠ []) : (l ++ r).head? = l.head? := by
  cases l with
  | nil => exact absurd rfl h
  | cons c t => rfl

/-- Every human-readable architecture label is non-empty. -/
theorem archLabel_data_ne_nil (t : ArchitectureType) : (archLabel t).data ≠ [] := by
  cases t <;> decide

/-- No human-readable architecture label starts with the character the
placeholder continues with after the shared project-overview heading. -/
theorem archLabel_head_ne (t : ArchitectureType) :
    (archLabel t).data.head? ≠ some 'ま' := by
  cases t <;> decide

/-- The main estimate body is never the placeholder: after the shared
heading the placeholder continues with 'ま' while the body continues with
the first character of an architecture label. -/
theorem estimateBody_ne_placeholder (reqs : StructuredRequirements)
    (a : SystemArchitecture) : estimateBody reqs a ≠ estimatePlaceholder := by
  intro h
  have hd := congrArg String.data h
  have hsplit : estimatePlaceholder.data =
      ("見積もり依頼書\n\n【プロジェクト概要】\n").data ++
      ("まず、要件を入力してシステム構成を生成してください。\n\n【システム要件】\n要件の分析が完了していません。\n\n【技術仕様】\nシステム構成の生成をお待ちください。\n\n【その他】\nご質問やご相談がございましたら、お気軽にお声がけください。").data := by
    decide
  rw [hsplit] at hd
  simp only [estimateBody, String.data_append, List.append_assoc] at hd
  have h2 := List.append_cancel_left hd
  have h3 := congrArg List.head? h2
  rw [headAppend _ _ (archLabel_data_ne_nil a.architecture_type)] at h3
  have h4 : ("まず、要件を入力してシステム構成を生成してください。\n\n【システム要件】\n要件の分析が完了していません。\n\n【技術仕様】\nシステム構成の生成をお待ちください。\n\n【その他】\nご質問やご相談がございましたら、お気軽にお声がけください。").data.head? =
      some 'ま' := by decide
  rw [h4] at h3
  exact archLabel_head_ne a.architecture_type h3

/-- A substring of a string stays a substring after appending on the
right. -/
theorem segIn_appendRight (y s z : String) (h : SegIn y s) : SegIn y (s ++ z) := by
  obtain ⟨u, v, hu⟩ := h
  exact ⟨u, v ++ z.data, by rw [String.data_append, hu]; simp [List.append_assoc]⟩

/-- The right part of an append is a substring of the whole. -/
theorem segIn_suffix (x y : String) : SegIn y (x ++ y) :=
  ⟨x.data, [], by simp [String.data_append]⟩

/-- A substring of a string stays a substring after appending on the
left. -/
theorem segIn_appendLeft (x : String) {y s : String} (h : SegIn y s) :
    SegIn y (x ++ s) := by
  obtain ⟨u, v, hu⟩ := h
  exact ⟨x.data ++ u, v, by rw [String.data_append, hu]; simp [List.append_assoc]⟩

/-- The middle part of a right-associated three-part append is a substring
of the whole. -/
theorem segIn_mid (x y z : String) : SegIn y (x ++ (y ++ z)) :=
  ⟨x.data, z.data, by simp [String.data_append]⟩

/-- The estimate body split at each of the four counted headers, fully
right-associated. -/
theorem estimateBody_split (reqs : StructuredRequirements) (a : SystemArchitecture) :
    estimateBody reqs a =
      ("見積もり依頼書\n\n【プロジェクト概要】\n" ++ archLabel a.architecture_type ++ "の開発をご依頼いたします。\n\n【システム要件】\n") ++
      (funcHeader reqs ++
      ("\n" ++
      (bulletLines reqs.functional_requirements ++
      ("\n\n" ++
      (nonFuncHeader reqs ++
      ("\n" ++
      (bulletLines reqs.non_functional_requirements ++
      ("\n\n" ++
      (constraintsHeader reqs ++
      ("\n" ++
      (bulletLines reqs.constraints ++
      ("\n\n【技術仕様】\n■ アーキテクチャタイプ: " ++
      (archTypeStr a.architecture_type ++
      ("\n■ デプロイ環境: " ++
      (deployEnvStr a.deployment_environment ++
      ("\n\n" ++
      (componentsHeader a ++
      ("\n" ++
      (componentsJoined a.components ++
      ("\n\n■ ネットワーク要件\n" ++
      (strBullets a.network_requirements ++
      ("\n\n■ セキュリティ対策\n" ++
      (strBullets a.security_measures ++
      ("\n\n■ スケーラビリティ考慮事項\n" ++
      (strBullets a.scalability_considerations ++
      "\n\n【その他】\nご質問やご相談がございましたら、お気軽にお声がけください。\n"))))))))))))))))))))))))) := by
  simp only [estimateBody, String.append_assoc]

/-- C8: the document renderer is a pure function of the store and the
optional architecture; it returns the fixed placeholder template exactly
when the architecture is absent or the store total is zero, and otherwise
its output contains each category header with the exact per-category item
count (which also shows it is total on empty sub-lists: the headers are
emitted even when every list is empty). -/
theorem generateEstimateTemplate_spec (reqs : StructuredRequirements)
    (arch : Option SystemArchitecture) :
    (generateEstimateTemplate reqs arch = estimatePlaceholder ↔
      (arch = none ∨ (getAllRequirements reqs).length = 0)) ∧
    (∀ a, arch = some a → (getAllRequirements reqs).length ≠ 0 →
      SegIn (funcHeader reqs) (generateEstimateTemplate reqs arch) ∧
      SegIn (nonFuncHeader reqs) (generateEstimateTemplate reqs arch) ∧
      SegIn (constraintsHeader reqs) (generateEstimateTemplate reqs arch) ∧
      SegIn (componentsHeader a) (generateEstimateTemplate reqs arch)) := by
  constructor
  · cases arch with
    | none => simp [generateEstimateTemplate]
    | some a =>
      by_cases h0 : (getAllRequirements reqs).length = 0
      · simp [generateEstimateTemplate, h0]
      · simp only [generateEstimateTemplate, if_neg h0]
        constructor
        · intro hb
          exact absurd hb (estimateBody_ne_placeholder reqs a)
        · rintro (hn | hz)
          · exact absurd hn (by simp)
          · exact absurd hz h0
  · intro a ha h0
    subst ha
    simp only [generateEstimateTemplate, if_neg h0]
    have hsplit := estimateBody_split reqs a
    refine ⟨?_, ?_, ?_, ?_⟩
    · rw [hsplit]; exact segIn_mid _ _ _
    · rw [hsplit]
      exact segIn_appendLeft _ (segIn_appendLeft _ (segIn_appendLeft _ (segIn_appendLeft _ (segIn_mid _ _ _))))
    · rw [hsplit]
      exact segIn_appendLeft _ (segIn_appendLeft _ (segIn_appendLeft _ (segIn_appendLeft _ (segIn_appendLeft _ (segIn_appendLeft _ (segIn_appendLeft _ (segIn_appendLeft _ (segIn_mid _ _ _))))))))
    · rw [hsplit]
      exact segIn_appendLeft _ (segIn_appendLeft _ (segIn_appendLeft _ (segIn_appendLeft _ (segIn_appendLeft _ (segIn_appendLeft _ (segIn_appendLeft _ (segIn_appendLeft _ (segIn_appendLeft _ (segIn_appendLeft _ (segIn_appendLeft _ (segIn_appendLeft _ (segIn_appendLeft _ (segIn_appendLeft _ (segIn_appendLeft _ (segIn_appendLeft _ (segIn_mid _ _ _))))))))))))))))

/-- Witness for C8 at a concrete one-item store and architecture. -/
theorem generateEstimateTemplate_spec_witness :
    SegIn (funcHeader exDoc1) (generateEstimateTemplate exDoc1 (some exArch)) ∧
    SegIn (componentsHeader exArch)
      (generateEstimateTemplate exDoc1 (some exArch)) :=
  ⟨((generateEstimateTemplate_spec exDoc1 (some exArch)).2 exArch rfl (by decide)).1,
   ((generateEstimateTemplate_spec exDoc1 (some exArch)).2 exArch rfl
      (by decide)).2.2.2⟩

end OmittChan
